import Mathlib

/-!
Verification of the smartdarkroom exposure-program engine.

The development shallowly embeds `smartdarkroom/prints.py` and
`smartdarkroom/enlarger.py`.  Durations are modelled as rationals (`ℚ`):
the Python source computes with binary floats, but every claim under
study is either an exact algebraic identity or a concrete scenario whose
float arithmetic is exact, so `ℚ` is faithful for these purposes.

Python's real exponential `2**x` (for a possibly fractional `x`) has
irrational values, so it is kept abstract: every definition that the
source writes as `2**stops` takes an explicit function `exp2 : ℚ → ℚ` as
a parameter and applies it where the source applies `2**·`.  Theorems
assume only the properties of `2**·` they need (monotonicity,
`exp2 0 = 1`, `exp2 1 = 2`, ...), and concrete witnesses instantiate
`exp2` with `exp2IntN`, which agrees with `2**x` at integer arguments.

Effectful engine code (`Enlarger._print`, `Enlarger.make`,
`Enlarger.focus`) is embedded as pure functions producing an event trace
(light switches, metronome starts and stops, sleeps, user prompts)
together with the final hardware state, with an explicit fault-injection
parameter standing for exceptions raised inside a `try` body.
-/

namespace SmartDarkroom

/-- Embeds `prints.PrintStep`: an immutable step with an exposure
`duration`, a `user_prompt`, an optional contrast `grade` and a
`before_step_duration` (`>0` preview light, `0` plain confirmation,
`<0` continuation sentinel). -/
structure PrintStep where
  duration : ℚ
  user_prompt : String
  grade : Option ℚ
  before_step_duration : ℚ
deriving DecidableEq, Repr

instance : Inhabited PrintStep := ⟨⟨0, "", Option.none, 0⟩⟩

/-- Concrete stand-in for Python's `2**x` used by witnesses and
counterexamples: it agrees with `2**x` whenever `x` is an integer
(`exp2IntN 0 = 1`, `exp2IntN 1 = 2`, `exp2IntN (-1) = 1/2`, ...), which
covers every concrete scenario mentioned by the claims. -/
def exp2IntN (q : ℚ) : ℚ :=
  if 0 ≤ q.num then ((2 : ℚ) ^ q.num.toNat) else 1 / (2 : ℚ) ^ (-q.num).toNat

/-- Embeds the state of the `Enlarger` hardware visible to the engine:
whether the light is on, and the currently applied filter
(`Enlarger._light` on/off state and `Enlarger._filter`). -/
structure EnlargerState where
  light : Bool
  filter : Option ℚ
deriving DecidableEq, Repr

/-- Embeds `Enlarger._on`. -/
def enOn (s : EnlargerState) : EnlargerState := { s with light := true }

/-- Embeds `Enlarger._off`. -/
def enOff (s : EnlargerState) : EnlargerState := { s with light := false }

/-- Observable events emitted by the engine: light actuation, metronome
construction (a `Metronome()` starts ticking at construction) and
`stop`, the three kinds of `time.sleep` in `_print` (preview sleep, main
exposure sleep, the 1/100 s delay in the `finally` block), the audible
after-preview bell, the filter-change prompt issued by `_set_filter`,
and the per-step confirmation prompt issued by `make`. -/
inductive Ev where
  | lightOn
  | lightOff
  | metroStart
  | metroStop
  | sleepPreview (d : ℚ)
  | sleepMain (d : ℚ)
  | sleepTiny
  | bell
  | promptFilter
  | promptConfirm
deriving DecidableEq, Repr

/-- Fault injection for `Enlarger._print`: no exception, an exception
raised by the preview-phase `time.sleep(before_print_seconds)`, or an
exception raised by the main-exposure `time.sleep(actual_seconds)`. -/
inductive Fault where
  | noFault
  | previewSleep
  | mainSleep
deriving DecidableEq, Repr

/-- The exception escaping `Enlarger._print`: either the injected fault
itself, or the `NameError` raised by the `finally` block when the local
`metronome` was never bound (preview-phase fault), which replaces the
original exception. -/
inductive PrintErr where
  | injected
  | nameError
deriving DecidableEq, Repr

/-- Embeds Python's `float(f"{seconds:.1f}")` scaled to tenths: the
number of tenths after round-half-even formatting of the exact rational
value. -/
def formatRoundTenths (q : ℚ) : ℤ :=
  let t := q * 10
  let f := ⌊t⌋
  if t - (f : ℚ) < 1/2 then f
  else if (1/2 : ℚ) < t - (f : ℚ) then f + 1
  else if 2 ∣ f then f else f + 1

/-- Embeds `float(f"{seconds:.1f}")`: the duration rounded to one
decimal place (line 142 of `enlarger.py`, `actual_seconds`). -/
def roundTo1 (q : ℚ) : ℚ := (formatRoundTenths q : ℚ) / 10

/-- Embeds `Enlarger._set_filter`: prompt the user (and record the new
filter) only when the requested filter differs from the current one. -/
def setFilter (s : EnlargerState) (filter : Option ℚ) : List Ev × EnlargerState :=
  if filter ≠ s.filter then ([Ev.promptFilter], { s with filter := filter }) else ([], s)

/-- Result of one `Enlarger._print` call: the event trace, the final
hardware state, and the exception escaping the call, if any. -/
structure PrintOutcome where
  trace : List Ev
  state : EnlargerState
  err : Option PrintErr
deriving DecidableEq, Repr

/-- Embeds `Enlarger._print` (enlarger.py lines 111-151) with fault
injection.  The normal path runs `_set_filter`, the optional preview
phase (`before_print_seconds > 0`: metronome, light on, sleep, metronome
stop, bell; `< 0`: bell only), then the main exposure (fresh metronome,
light on, sleep `actual_seconds = roundTo1 seconds`), and the `finally`
block (light off only when `turn_off_enlarger_at_end_of_print`, the tiny
sleep, `metronome.stop()`).  A fault in the preview sleep reaches the
`finally` with the local `metronome` unbound, so after the conditional
light-off and tiny sleep the `finally` itself raises a `NameError`
(replacing the original exception) before any metronome is stopped; the
preview metronome keeps running.  A fault in the main sleep runs the
whole `finally` and propagates the original exception. -/
def printRun (s0 : EnlargerState) (seconds : ℚ) (filter : Option ℚ)
    (before_print_seconds : ℚ) (turn_off_enlarger_at_end_of_print : Bool)
    (fault : Fault) : PrintOutcome :=
  let t := turn_off_enlarger_at_end_of_print
  let fs := setFilter s0 filter
  let tr0 := fs.1
  let s1 := fs.2
  if fault = Fault.previewSleep ∧ before_print_seconds > 0 then
    let s2 := enOn s1
    let s3 := if t then enOff s2 else s2
    ⟨tr0 ++ [Ev.metroStart, Ev.lightOn]
         ++ (if t then [Ev.lightOff] else []) ++ [Ev.sleepTiny],
     s3, some PrintErr.nameError⟩
  else
    let trPreview :=
      if before_print_seconds > 0 then
        [Ev.metroStart, Ev.lightOn, Ev.sleepPreview before_print_seconds,
         Ev.metroStop, Ev.bell]
      else if before_print_seconds < 0 then [Ev.bell] else []
    let s2 := if before_print_seconds > 0 then enOn s1 else s1
    let actual_seconds := roundTo1 seconds
    let s3 := enOn s2
    let s4 := if t then enOff s3 else s3
    let trFin := (if t then [Ev.lightOff] else []) ++ [Ev.sleepTiny, Ev.metroStop]
    if fault = Fault.mainSleep then
      ⟨tr0 ++ trPreview ++ [Ev.metroStart, Ev.lightOn] ++ trFin,
       s4, some PrintErr.injected⟩
    else
      ⟨tr0 ++ trPreview ++ [Ev.metroStart, Ev.lightOn, Ev.sleepMain actual_seconds] ++ trFin,
       s4, Option.none⟩

/-- The durations of the main-exposure sleeps occurring in a trace. -/
def mainSleeps (tr : List Ev) : List ℚ :=
  tr.filterMap (fun e => match e with | Ev.sleepMain d => some d | _ => Option.none)

/-- Embeds one iteration of the step loop of `Enlarger.make` (lines
172-185): announce the step, prompt for confirmation only when
`before_step_duration >= 0`, then run `_print` with the given lookahead
`turn_off` decision. -/
def makeStep (s : EnlargerState) (step : PrintStep) (turnOff : Bool) :
    List Ev × EnlargerState :=
  let promptEvs := if 0 ≤ step.before_step_duration then [Ev.promptConfirm] else []
  let r := printRun s step.duration step.grade step.before_step_duration turnOff Fault.noFault
  (promptEvs ++ r.trace, r.state)

/-- Embeds the step loop of `Enlarger.make` with its one-step lookahead:
step `i` keeps the light on at its end exactly when a next step exists
whose `before_step_duration < 0`.  Returns the per-step traces and the
final hardware state. -/
def makeSteps (s : EnlargerState) : List PrintStep → List (List Ev) × EnlargerState
  | [] => ([], s)
  | step :: rest =>
      let turnOff := match rest with
        | [] => true
        | next :: _ => decide (0 ≤ next.before_step_duration)
      let r := makeStep s step turnOff
      let rs := makeSteps r.2 rest
      (r.1 :: rs.1, rs.2)

/-- Embeds `Enlarger.make` (lines 153-189): first `self._off()` (turn
off a focus light), then the step loop.  The textual program preview and
final logging have no effect on hardware state and are omitted. -/
def makeRun (s0 : EnlargerState) (steps : List PrintStep) :
    List (List Ev) × EnlargerState :=
  makeSteps (enOff s0) steps

/-- Outcome of the `input()` wait inside `Enlarger.focus`: user
acknowledgment, the `TimeoutError` raised by the `Timeout` alarm, or any
other fault. -/
inductive FocusWait where
  | ack
  | timeout
  | fault
deriving DecidableEq, Repr

/-- The exception classes that can escape the `try` body of `focus`. -/
inductive FocusErr where
  | timeoutError
  | otherError
deriving DecidableEq, Repr

/-- The exception raised by the `try` body of `focus` for each wait
outcome. -/
def focusBody (w : FocusWait) : Option FocusErr :=
  match w with
  | FocusWait.ack => Option.none
  | FocusWait.timeout => some FocusErr.timeoutError
  | FocusWait.fault => some FocusErr.otherError

/-- Embeds `Enlarger.focus` (enlarger.py lines 69-84): turn the light
on, wait for acknowledgment under the timeout guard; `except
TimeoutError` swallows the timeout (printing a warning); the `finally`
block turns the light off on every path.  Returns the final hardware
state and the exception escaping the call, if any. -/
def focusRun (w : FocusWait) (s0 : EnlargerState) :
    EnlargerState × Option FocusErr :=
  let s1 := enOn s0
  let r := focusBody w
  let rAfterExcept :=
    match r with
    | some FocusErr.timeoutError => Option.none
    | other => other
  (enOff s1, rAfterExcept)

/-- Embeds the mutable state of `prints.MultiStepPrint`: the base
parameters, the stored dodge and burn modifiers (kept, as in the source,
as `PrintStep`s whose `duration` field holds the *stop count*), the
cached totals recomputed by `_calc_dodge_steps`, and the realized
`_print_list` inherited from `BasicPrint`. -/
structure MultiStepPrint where
  base_duration : ℚ
  base_grade : Option ℚ
  base_before_step_duration : ℚ
  base_user_prompt : String
  burn_steps_in_stops : List PrintStep
  dodge_steps_in_stops : List PrintStep
  total_dodge_stops : ℚ
  total_dodge_duration : ℚ
  print_list : List PrintStep
deriving DecidableEq, Repr

/-- Embeds `MultiStepPrint._calc_dodge_steps`: walks the stored dodge
modifiers, computing each dodge duration `base - base / 2**stops` and
accumulating the total stops and total dodge duration.  Returns
(dodge steps, total stops, total dodge duration). -/
def calcDodgeSteps (exp2 : ℚ → ℚ) (base : ℚ) (grade : Option ℚ) :
    List PrintStep → List PrintStep × ℚ × ℚ
  | [] => ([], 0, 0)
  | step :: rest =>
      let step_stops := step.duration
      let dodge_duration := base - base / exp2 step_stops
      let d : PrintStep :=
        ⟨dodge_duration, step.user_prompt, grade, step.before_step_duration⟩
      let r := calcDodgeSteps exp2 base grade rest
      (d :: r.1, step_stops + r.2.1, dodge_duration + r.2.2)

/-- Embeds `MultiStepPrint._calc_burn_steps`: each burn duration is
`base * 2**stops - base`; a burn at grade `None` inherits the base
grade. -/
def calcBurnSteps (exp2 : ℚ → ℚ) (base : ℚ) (grade : Option ℚ)
    (mods : List PrintStep) : List PrintStep :=
  mods.map (fun step =>
    ⟨base * exp2 step.duration - base,
     step.user_prompt,
     (if step.grade = Option.none then grade else step.grade),
     step.before_step_duration⟩)

/-- Embeds `MultiStepPrint._build_print_list`: recompute the dodge steps
(with their totals), the base step (base duration minus the total dodge
duration), and the burn steps, and store `[base] ++ dodges ++ burns` as
the print list. -/
def buildPrintList (exp2 : ℚ → ℚ) (s : MultiStepPrint) : MultiStepPrint :=
  let r := calcDodgeSteps exp2 s.base_duration s.base_grade s.dodge_steps_in_stops
  let base_step : PrintStep :=
    ⟨s.base_duration - r.2.2, s.base_user_prompt, s.base_grade,
     s.base_before_step_duration⟩
  let burn_steps := calcBurnSteps exp2 s.base_duration s.base_grade s.burn_steps_in_stops
  { s with total_dodge_stops := r.2.1,
           total_dodge_duration := r.2.2,
           print_list := [base_step] ++ r.1 ++ burn_steps }

/-- Embeds `MultiStepPrint.__init__`: store the base parameters with
empty modifier lists and build the print list. -/
def MultiStepPrint.init (exp2 : ℚ → ℚ) (base_duration : ℚ) (grade : Option ℚ)
    (user_prompt : String) (before_step_duration : ℚ) : MultiStepPrint :=
  buildPrintList exp2
    { base_duration := base_duration
      base_grade := grade
      base_before_step_duration := before_step_duration
      base_user_prompt := user_prompt
      burn_steps_in_stops := []
      dodge_steps_in_stops := []
      total_dodge_stops := 0
      total_dodge_duration := 0
      print_list := [] }

/-- The user prompt built by `MultiStepPrint.dodge`. -/
def dodgePrompt (stops : ℚ) (subject : String) : String :=
  "Dodge " ++ (if subject = "" then "unspecified subject" else subject)
    ++ " for " ++ toString stops ++ " stops"

/-- The user prompt built by `MultiStepPrint.burn`. -/
def burnPrompt (stops : ℚ) (subject : String) : String :=
  "Burn " ++ (if subject = "" then "unspecified subject" else subject)
    ++ " for " ++ toString stops ++ " stops"

/-- Embeds `MultiStepPrint.dodge` (prints.py lines 473-499).  The guard
raises exactly when the proposed dodge duration plus the cached total
dodge duration is strictly greater than the base duration; on the raise
the builder is returned unchanged together with the error message, and
otherwise the modifier is appended and the print list rebuilt. -/
def MultiStepPrint.dodge (exp2 : ℚ → ℚ) (s : MultiStepPrint) (stops : ℚ)
    (before_step_duration : ℚ) (subject : String) :
    MultiStepPrint × Option String :=
  let proposed_dodge_duration := s.base_duration - s.base_duration / exp2 stops
  if proposed_dodge_duration + s.total_dodge_duration > s.base_duration then
    (s, some "Cannot add dodge step that would make total dodge duration greater than base duration.")
  else
    let dodge_step : PrintStep :=
      ⟨stops, dodgePrompt stops subject, Option.none, before_step_duration⟩
    (buildPrintList exp2
      { s with dodge_steps_in_stops := s.dodge_steps_in_stops ++ [dodge_step] },
     Option.none)

/-- Embeds `MultiStepPrint.burn` (prints.py lines 435-452): always
succeeds, appending the modifier and rebuilding. -/
def MultiStepPrint.burn (exp2 : ℚ → ℚ) (s : MultiStepPrint) (stops : ℚ)
    (grade : Option ℚ) (before_step_duration : ℚ) (subject : String) :
    MultiStepPrint :=
  let burn_step : PrintStep :=
    ⟨stops, burnPrompt stops subject, grade, before_step_duration⟩
  buildPrintList exp2
    { s with burn_steps_in_stops := s.burn_steps_in_stops ++ [burn_step] }

/-- Embeds the `base_duration` property setter: store and rebuild. -/
def MultiStepPrint.setBaseDuration (exp2 : ℚ → ℚ) (s : MultiStepPrint)
    (new_duration : ℚ) : MultiStepPrint :=
  buildPrintList exp2 { s with base_duration := new_duration }

/-- Embeds the `grade` property setter: store and rebuild. -/
def MultiStepPrint.setGrade (exp2 : ℚ → ℚ) (s : MultiStepPrint)
    (new_grade : Option ℚ) : MultiStepPrint :=
  buildPrintList exp2 { s with base_grade := new_grade }

/-- Embeds the `base_user_prompt` property setter: store and rebuild. -/
def MultiStepPrint.setBaseUserPrompt (exp2 : ℚ → ℚ) (s : MultiStepPrint)
    (new_prompt : String) : MultiStepPrint :=
  buildPrintList exp2 { s with base_user_prompt := new_prompt }

/-- How a `remove_step` call ended: a printed message with no action
(`step_number == 1` or past the end of the print list), a successful
removal, or the `IndexError` of `list.pop` on an out-of-range (negative)
index.  In every non-`removed` outcome the Python object is left
unchanged, which the embedding mirrors by returning the input state. -/
inductive RemoveNote where
  | noAction
  | removed
  | indexError
deriving DecidableEq, Repr

/-- Embeds Python's `list.pop(i)` lookup semantics: a negative index
counts from the end; an index out of range raises `IndexError`
(here `Option.none`).  Only the popped element is returned because the
source pops from a throwaway concatenated copy. -/
def listPop (xs : List PrintStep) (i : ℤ) : Option PrintStep :=
  let j := if i < 0 then i + xs.length else i
  if h : 0 ≤ j ∧ j < xs.length then
    some (xs.get ⟨j.toNat, by omega⟩)
  else Option.none

/-- Embeds `MultiStepPrint.remove_step` (prints.py lines 397-419):
`step_number == 1` and `step_number > len(print_list)` just print a
message and return; otherwise `pop(step_number - 2)` on the concatenated
dodge+burn copy selects the modifier, which is then removed from
whichever of the two lists contains it, and the print list rebuilt. -/
def MultiStepPrint.removeStep (exp2 : ℚ → ℚ) (s : MultiStepPrint)
    (step_number : ℤ) : MultiStepPrint × RemoveNote :=
  if step_number = 1 then (s, RemoveNote.noAction)
  else if step_number > s.print_list.length then (s, RemoveNote.noAction)
  else
    let all_steps := s.dodge_steps_in_stops ++ s.burn_steps_in_stops
    match listPop all_steps (step_number - 2) with
    | Option.none => (s, RemoveNote.indexError)
    | some item =>
        if item ∈ s.dodge_steps_in_stops then
          (buildPrintList exp2
            { s with dodge_steps_in_stops := s.dodge_steps_in_stops.erase item },
           RemoveNote.removed)
        else
          (buildPrintList exp2
            { s with burn_steps_in_stops := s.burn_steps_in_stops.erase item },
           RemoveNote.removed)

/-- Embeds the cumulative exposure list of `FStopTestStrip.__init__`:
`total_steps = [base * 2**(i*stops) for i in range(0, steps)]`. -/
def totalSteps (exp2 : ℚ → ℚ) (base : ℚ) (steps : ℕ) (stops : ℚ) : List ℚ :=
  (List.range steps).map (fun (i : ℕ) => base * exp2 ((i : ℚ) * stops))

/-- Embeds the successive-difference step of `FStopTestStrip.__init__`:
`[j-i for i, j in zip(l[:-1], l[1:])]`. -/
def diffs (l : List ℚ) : List ℚ :=
  List.zipWith (fun i j => j - i) l l.tail

/-- The middle-out recentered base of the test strips:
`base / 2**(int(steps/2)*stops)` when `middle_out` is set. -/
def middleOutBase (exp2 : ℚ → ℚ) (base : ℚ) (steps : ℕ) (stops : ℚ)
    (middle_out : Bool) : ℚ :=
  if middle_out then base / exp2 ((steps / 2 : ℕ) * stops) else base

/-- The incremental per-strip durations of `FStopTestStrip.__init__`:
the differences of the cumulative totals after a `0` is inserted at the
front. -/
def fStopIncrementalSteps (exp2 : ℚ → ℚ) (base : ℚ) (steps : ℕ) (stops : ℚ) :
    List ℚ :=
  diffs (0 :: totalSteps exp2 base steps stops)

/-- Embeds `FStopTestStrip.__init__` (prints.py lines 511-533): the
(possibly middle-out-recentered) base generates cumulative totals, their
successive differences become the stored per-strip `PrintStep`s.  The
construction performs no parameter validation: any `steps` and `stops`
are accepted (`steps = 0`, which also covers Python's negative step
counts via the empty `range`, yields an empty strip). -/
def fStopTestStrip (exp2 : ℚ → ℚ) (base : ℚ) (steps : ℕ) (stops : ℚ)
    (middle_out : Bool) (grade : Option ℚ) : List PrintStep :=
  let b := middleOutBase exp2 base steps stops middle_out
  (fStopIncrementalSteps exp2 b steps stops).map
    (fun i =>
      ⟨i,
       (if i = b then "Place paper for print."
        else "Move card to block just exposed test strip."),
       grade, 0⟩)

/-- Embeds `FStopTestStrip.__getitem__` (prints.py lines 535-550): the
returned step carries the *total* exposure (the sum of the first
`key+1` incremental durations) and the grade of the stored step; an
out-of-range key is Python's `IndexError` (`Option.none`). -/
def fStopGetItem (print_list : List PrintStep) (key : ℕ) : Option PrintStep :=
  if h : key < print_list.length then
    some ⟨((print_list.take (key + 1)).map PrintStep.duration).sum, "",
          (print_list.get ⟨key, h⟩).grade, 0⟩
  else Option.none

/-- Embeds `FStopTestStrip.from_step` (prints.py lines 552-571) applied
to an `FStopTestStrip` source: the source step is looked up through the
cumulative `__getitem__`, its duration becomes the new strip's base, and
its grade is used when no grade is given. -/
def fStopFromStep (exp2 : ℚ → ℚ) (source : List PrintStep) (step_number : ℕ)
    (steps : ℕ) (stops : ℚ) (middle_out : Bool) (grade : Option ℚ) :
    Option (List PrintStep) :=
  (fStopGetItem source (step_number - 1)).map (fun original =>
    let g := if grade = Option.none then original.grade else grade
    fStopTestStrip exp2 original.duration steps stops middle_out g)

/-- Embeds `LocalizedFStopTestStrip.__init__` (prints.py lines 582-601):
each strip holds the full cumulative exposure `base * 2**(i*stops)`; no
parameter validation is performed. -/
def localizedFStopTestStrip (exp2 : ℚ → ℚ) (base : ℚ) (steps : ℕ) (stops : ℚ)
    (middle_out : Bool) (grade : Option ℚ) : List PrintStep :=
  let b := middleOutBase exp2 base steps stops middle_out
  (List.range steps).map (fun (i : ℕ) =>
    ⟨b * exp2 ((i : ℚ) * stops),
     (if i = 0 then "Place paper for print."
      else "Move paper to expose next strip."),
     grade, 0⟩)

/-- Embeds `BarnbaumTestPrint.__init__` (prints.py lines 643-663): the
base is halved in middle-out mode, an adjusted base below 1 second
raises before any step is built, and otherwise the steps are `base * i`
for `i` in `range(1, 4)`. -/
def barnbaumTestPrint (base : ℚ) (middle_out : Bool) (grade : Option ℚ) :
    Except String (List PrintStep) :=
  let b := if middle_out then base / 2 else base
  if b < 1 then
    Except.error "Calculated exposure is below 1 second, too short for printing."
  else
    Except.ok ((List.range' 1 3).map (fun (i : ℕ) =>
      ⟨b * (i : ℚ),
       (if i = 1 then "Place paper for print."
        else "Move paper to cover portion of print."),
       grade, 0⟩))

/-- The central realization invariant of `MultiStepPrint`, written with
spec-level closed formulas (maps and sums over the modifier lists): the
cached total dodge duration is the sum of the dodge durations
`base - base / 2**stops`, and the realized print list is
`[base_step] ++ dodge_steps ++ burn_steps` with the base step's duration
equal to `base_duration` minus the total dodge duration and each burn
duration equal to `base * 2**stops - base`. -/
def Realizes (exp2 : ℚ → ℚ) (s : MultiStepPrint) : Prop :=
  s.total_dodge_duration
    = (s.dodge_steps_in_stops.map
        (fun m => s.base_duration - s.base_duration / exp2 m.duration)).sum
  ∧ s.print_list
    = (⟨s.base_duration
          - (s.dodge_steps_in_stops.map
              (fun m => s.base_duration - s.base_duration / exp2 m.duration)).sum,
        s.base_user_prompt, s.base_grade, s.base_before_step_duration⟩ : PrintStep)
      :: (s.dodge_steps_in_stops.map
            (fun m => (⟨s.base_duration - s.base_duration / exp2 m.duration,
                       m.user_prompt, s.base_grade,
                       m.before_step_duration⟩ : PrintStep)))
      ++ (s.burn_steps_in_stops.map
            (fun m => (⟨s.base_duration * exp2 m.duration - s.base_duration,
                       m.user_prompt,
                       (if m.grade = Option.none then s.base_grade else m.grade),
                       m.before_step_duration⟩ : PrintStep)))

section Theorems

/-! Helper lemmas about the engine embedding. -/

theorem setFilter_no_confirm (s : EnlargerState) (filter : Option ℚ) :
    Ev.promptConfirm ∉ (setFilter s filter).1 := by
  unfold setFilter
  split <;> simp

theorem setFilter_no_lightOff (s : EnlargerState) (filter : Option ℚ) :
    Ev.lightOff ∉ (setFilter s filter).1 := by
  unfold setFilter
  split <;> simp

theorem printRun_noFault_err (s0 : EnlargerState) (seconds : ℚ) (filter : Option ℚ)
    (before : ℚ) (t : Bool) :
    (printRun s0 seconds filter before t Fault.noFault).err = Option.none := by
  simp [printRun]

theorem printRun_noFault_light (s0 : EnlargerState) (seconds : ℚ) (filter : Option ℚ)
    (before : ℚ) (t : Bool) :
    (printRun s0 seconds filter before t Fault.noFault).state.light = !t := by
  cases t <;> simp [printRun, enOn, enOff]

theorem printRun_no_confirm (s0 : EnlargerState) (seconds : ℚ) (filter : Option ℚ)
    (before : ℚ) (t : Bool) (fault : Fault) :
    Ev.promptConfirm ∉ (printRun s0 seconds filter before t fault).trace := by
  have h0 := setFilter_no_confirm s0 filter
  unfold printRun
  split_ifs <;> simp_all

theorem printRun_noFault_lightOff_mem (s0 : EnlargerState) (seconds : ℚ)
    (filter : Option ℚ) (before : ℚ) (t : Bool) :
    Ev.lightOff ∈ (printRun s0 seconds filter before t Fault.noFault).trace ↔ t = true := by
  have h0 := setFilter_no_lightOff s0 filter
  unfold printRun
  split_ifs <;> simp_all

theorem printRun_noFault_mainSleeps (s0 : EnlargerState) (seconds : ℚ)
    (filter : Option ℚ) (before : ℚ) (t : Bool) :
    mainSleeps (printRun s0 seconds filter before t Fault.noFault).trace
      = [roundTo1 seconds] := by
  unfold printRun
  have hf : (setFilter s0 filter).1 = [] ∨ (setFilter s0 filter).1 = [Ev.promptFilter] := by
    unfold setFilter
    split <;> simp
  rcases hf with hf | hf <;> split_ifs <;> simp_all [mainSleeps]

/-- C8: Enlarger.focus turns the light off on every path (normal
acknowledgment, timeout, or any other fault), and a timeout is caught
inside the call: no exception escapes when the confirmation wait exceeds
the timeout. -/
theorem focus_light_off_and_timeout_recovered :
    ∀ (w : FocusWait) (s0 : EnlargerState),
      (focusRun w s0).1.light = false
      ∧ (focusRun FocusWait.timeout s0).2 = Option.none := by
  intro w s0
  exact ⟨rfl, rfl⟩

/-- C4 counterexample: at `seconds = 1.26` the engine sleeps `1.3`
seconds for the main exposure (the value rounded to one decimal place as
displayed), not the unrounded `1.26` the claim requires. -/
theorem main_sleep_rounded_counterexample :
    mainSleeps (printRun ⟨false, Option.none⟩ (126/100) Option.none 0 true
        Fault.noFault).trace = [13/10]
    ∧ ((13 : ℚ)/10 ≠ 126/100) := by
  constructor
  · rw [printRun_noFault_mainSleeps]
    norm_num [roundTo1, formatRoundTenths]
  · norm_num

/-- C4 amended: on every fault-free call of `Enlarger._print`, the main
exposure sleeps exactly `roundTo1 seconds` — the duration rounded to one
decimal place, the same value that is displayed — rather than the
unrounded duration. -/
theorem main_sleep_is_rounded (s0 : EnlargerState) (seconds : ℚ) (filter : Option ℚ)
    (before : ℚ) (t : Bool) :
    mainSleeps (printRun s0 seconds filter before t Fault.noFault).trace
      = [roundTo1 seconds] :=
  printRun_noFault_mainSleeps s0 seconds filter before t

/-- C1 counterexample: a fault during the main exposure sleep with
`turn_off_enlarger_at_end_of_print = False` escapes `_print` with the
light still on, refuting the claim that the light is off when the
exception escapes regardless of the flag. -/
theorem print_light_left_on_counterexample :
    (printRun ⟨false, Option.none⟩ 5 Option.none 0 false Fault.mainSleep).err
      = some PrintErr.injected
    ∧ (printRun ⟨false, Option.none⟩ 5 Option.none 0 false Fault.mainSleep).state.light
      = true := ⟨rfl, rfl⟩

/-- C1 amended: when `_print` raises (fault in the main exposure sleep,
or in the preview sleep when a preview runs), an exception escapes and
the light is off exactly when `turn_off_enlarger_at_end_of_print` is
true (with the flag false the light is left on).  After the main
exposure has begun every started metronome is stopped before
propagation; a preview-phase fault instead escapes as the `finally`
block's `NameError` (the local `metronome` is unbound) with the preview
metronome never stopped. -/
theorem setFilter_trace_cases (s : EnlargerState) (filter : Option ℚ) :
    (setFilter s filter).1 = [] ∨ (setFilter s filter).1 = [Ev.promptFilter] := by
  unfold setFilter
  split <;> simp

theorem printRun_mainSleep_err (s0 : EnlargerState) (seconds : ℚ) (filter : Option ℚ)
    (before : ℚ) (t : Bool) :
    (printRun s0 seconds filter before t Fault.mainSleep).err
      = some PrintErr.injected := by
  simp [printRun]

theorem printRun_previewSleep_err (s0 : EnlargerState) (seconds : ℚ) (filter : Option ℚ)
    (before : ℚ) (t : Bool) (hb : 0 < before) :
    (printRun s0 seconds filter before t Fault.previewSleep).err
      = some PrintErr.nameError := by
  simp [printRun, hb]

theorem printRun_fault_light (s0 : EnlargerState) (seconds : ℚ) (filter : Option ℚ)
    (before : ℚ) (t : Bool) (fault : Fault)
    (h : fault = Fault.mainSleep ∨ (fault = Fault.previewSleep ∧ 0 < before)) :
    (printRun s0 seconds filter before t fault).state.light = !t := by
  rcases h with h | ⟨h, hb⟩ <;> subst h <;> cases t <;>
    by_cases hb1 : before > 0 <;>
    simp_all [printRun, enOn, enOff]

theorem printRun_mainSleep_counts (s0 : EnlargerState) (seconds : ℚ) (filter : Option ℚ)
    (before : ℚ) (t : Bool) :
    (printRun s0 seconds filter before t Fault.mainSleep).trace.count Ev.metroStop
      = (printRun s0 seconds filter before t Fault.mainSleep).trace.count Ev.metroStart := by
  by_cases hb1 : before > 0 <;>
    rcases setFilter_trace_cases s0 filter with hf | hf <;> cases t <;>
    simp [printRun, hb1, hf, List.count_append, List.count_cons] <;>
    split <;> simp

theorem printRun_previewSleep_counts (s0 : EnlargerState) (seconds : ℚ)
    (filter : Option ℚ) (before : ℚ) (t : Bool) (hb : 0 < before) :
    (printRun s0 seconds filter before t Fault.previewSleep).trace.count Ev.metroStop
      = 0 := by
  rcases setFilter_trace_cases s0 filter with hf | hf <;> cases t <;>
    simp [printRun, hb, hf, List.count_append, List.count_cons]

/-- C1 amended: when `_print` raises (fault in the main exposure sleep,
or in the preview sleep when a preview runs), an exception escapes and
the light is off exactly when `turn_off_enlarger_at_end_of_print` is
true (with the flag false the light is left on).  After the main
exposure has begun every started metronome is stopped before
propagation; a preview-phase fault instead escapes as the `finally`
block's `NameError` (the local `metronome` is unbound) with the preview
metronome never stopped. -/
theorem print_cleanup_on_fault (s0 : EnlargerState) (seconds : ℚ) (filter : Option ℚ)
    (before : ℚ) (t : Bool) (fault : Fault)
    (h : fault = Fault.mainSleep ∨ (fault = Fault.previewSleep ∧ 0 < before)) :
    (printRun s0 seconds filter before t fault).err.isSome = true
    ∧ (printRun s0 seconds filter before t fault).state.light = !t
    ∧ (fault = Fault.mainSleep →
        ((printRun s0 seconds filter before t fault).trace.count Ev.metroStop
          = (printRun s0 seconds filter before t fault).trace.count Ev.metroStart))
    ∧ (fault = Fault.previewSleep →
        ((printRun s0 seconds filter before t fault).trace.count Ev.metroStop = 0
         ∧ (printRun s0 seconds filter before t fault).err
            = some PrintErr.nameError)) := by
  rcases h with h | ⟨h, hb⟩ <;> subst h
  · refine ⟨?_, ?_, ?_, ?_⟩
    · rw [printRun_mainSleep_err]
      rfl
    · exact printRun_fault_light s0 seconds filter before t Fault.mainSleep (Or.inl rfl)
    · intro _
      exact printRun_mainSleep_counts s0 seconds filter before t
    · intro hc
      simp at hc
  · refine ⟨?_, ?_, ?_, ?_⟩
    · rw [printRun_previewSleep_err s0 seconds filter before t hb]
      rfl
    · exact printRun_fault_light s0 seconds filter before t Fault.previewSleep
        (Or.inr ⟨rfl, hb⟩)
    · intro hc
      simp at hc
    · intro _
      exact ⟨printRun_previewSleep_counts s0 seconds filter before t hb,
             printRun_previewSleep_err s0 seconds filter before t hb⟩

/-- C1 amended witness at a concrete input: the main-sleep fault with
the flag true. -/
theorem print_cleanup_on_fault_witness :
    (printRun ⟨false, Option.none⟩ 5 Option.none 0 true Fault.mainSleep).err.isSome = true
    ∧ (printRun ⟨false, Option.none⟩ 5 Option.none 0 true Fault.mainSleep).state.light
        = !true
    ∧ (Fault.mainSleep = Fault.mainSleep →
        ((printRun ⟨false, Option.none⟩ 5 Option.none 0 true
            Fault.mainSleep).trace.count Ev.metroStop
          = (printRun ⟨false, Option.none⟩ 5 Option.none 0 true
              Fault.mainSleep).trace.count Ev.metroStart))
    ∧ (Fault.mainSleep = Fault.previewSleep →
        ((printRun ⟨false, Option.none⟩ 5 Option.none 0 true
            Fault.mainSleep).trace.count Ev.metroStop = 0
         ∧ (printRun ⟨false, Option.none⟩ 5 Option.none 0 true Fault.mainSleep).err
            = some PrintErr.nameError)) :=
  print_cleanup_on_fault ⟨false, Option.none⟩ 5 Option.none 0 true Fault.mainSleep
    (Or.inl rfl)

theorem makeStep_promptConfirm (s : EnlargerState) (step : PrintStep) (t : Bool) :
    Ev.promptConfirm ∈ (makeStep s step t).1 ↔ 0 ≤ step.before_step_duration := by
  have h := printRun_no_confirm s step.duration step.grade step.before_step_duration t
    Fault.noFault
  unfold makeStep
  split_ifs with hb <;> simp_all

theorem makeStep_lightOff (s : EnlargerState) (step : PrintStep) (t : Bool) :
    Ev.lightOff ∈ (makeStep s step t).1 ↔ t = true := by
  have h := printRun_noFault_lightOff_mem s step.duration step.grade
    step.before_step_duration t
  unfold makeStep
  split_ifs with hb <;> simp_all

theorem makeStep_light (s : EnlargerState) (step : PrintStep) (t : Bool) :
    (makeStep s step t).2.light = !t := by
  unfold makeStep
  simp [printRun_noFault_light]

theorem makeSteps_light (s : EnlargerState) (steps : List PrintStep) (h : steps ≠ []) :
    (makeSteps s steps).2.light = false := by
  induction steps generalizing s with
  | nil => exact absurd rfl h
  | cons a l ih =>
    cases l with
    | nil => simp [makeSteps, makeStep_light]
    | cons b m =>
      simp only [makeSteps]
      exact ih _ (by simp)

theorem makeSteps_trace_spec (steps : List PrintStep) (i : ℕ) (h : i < steps.length)
    (s : EnlargerState) :
    (Ev.promptConfirm ∈ (makeSteps s steps).1.getD i []
      ↔ 0 ≤ (steps.getD i default).before_step_duration)
    ∧ (Ev.lightOff ∈ (makeSteps s steps).1.getD i []
      ↔ (steps.length = i + 1 ∨ 0 ≤ (steps.getD (i + 1) default).before_step_duration)) := by
  induction steps generalizing i s with
  | nil => simp at h
  | cons a l ih =>
    cases i with
    | zero =>
      cases l with
      | nil =>
        constructor
        · simpa [makeSteps] using makeStep_promptConfirm s a true
        · simp [makeSteps, makeStep_lightOff]
      | cons b m =>
        constructor
        · simpa [makeSteps] using
            makeStep_promptConfirm s a (decide (0 ≤ b.before_step_duration))
        · simp [makeSteps, makeStep_lightOff]
    | succ j =>
      have hj : j < l.length := by simpa using h
      cases l with
      | nil => simp at hj
      | cons b m =>
        simpa [makeSteps] using
          ih j hj (makeStep s a (decide (0 ≤ b.before_step_duration))).2

/-- C3: for every program executed by `Enlarger.make` and every step
index `i` (0-based here): the confirmation prompt occurs in step `i`'s
trace iff that step's `before_step_duration` is nonnegative; the light
is turned off at the end of step `i` iff there is no step `i+1` with
negative `before_step_duration` (so the light stays on into a
continuation step); and after the last step the light is off. -/
theorem make_prompt_lightoff_spec (s0 : EnlargerState) (steps : List PrintStep) (i : ℕ)
    (h : i < steps.length) :
    (Ev.promptConfirm ∈ (makeRun s0 steps).1.getD i []
      ↔ 0 ≤ (steps.getD i default).before_step_duration)
    ∧ (Ev.lightOff ∈ (makeRun s0 steps).1.getD i []
      ↔ (steps.length = i + 1 ∨ 0 ≤ (steps.getD (i + 1) default).before_step_duration))
    ∧ (makeRun s0 steps).2.light = false := by
  have h1 := makeSteps_trace_spec steps i h (enOff s0)
  unfold makeRun
  refine ⟨h1.1, h1.2, makeSteps_light _ _ ?_⟩
  intro hc
  subst hc
  simp at h

/-- C3 witness: the two-step continuation scenario (step 2 has
`before_step_duration = -1`), instantiated at step index 0: the prompt
occurs before step 1, the light is not turned off at the end of step 1,
and the final light state is off. -/
theorem make_prompt_lightoff_spec_witness :
    (0 < ([⟨5, "Place paper for print.", some (5/2), 0⟩,
           ⟨3, "Dodge subject", some (5/2), -1⟩] : List PrintStep).length)
    ∧ ((Ev.promptConfirm ∈ (makeRun ⟨false, Option.none⟩
          [⟨5, "Place paper for print.", some (5/2), 0⟩,
           ⟨3, "Dodge subject", some (5/2), -1⟩]).1.getD 0 []
        ↔ 0 ≤ (([⟨5, "Place paper for print.", some (5/2), 0⟩,
                 ⟨3, "Dodge subject", some (5/2), -1⟩] : List PrintStep).getD 0
                default).before_step_duration)
      ∧ (Ev.lightOff ∈ (makeRun ⟨false, Option.none⟩
          [⟨5, "Place paper for print.", some (5/2), 0⟩,
           ⟨3, "Dodge subject", some (5/2), -1⟩]).1.getD 0 []
        ↔ (([⟨5, "Place paper for print.", some (5/2), 0⟩,
             ⟨3, "Dodge subject", some (5/2), -1⟩] : List PrintStep).length = 0 + 1
           ∨ 0 ≤ (([⟨5, "Place paper for print.", some (5/2), 0⟩,
                    ⟨3, "Dodge subject", some (5/2), -1⟩] : List PrintStep).getD (0 + 1)
                   default).before_step_duration))
      ∧ (makeRun ⟨false, Option.none⟩
          [⟨5, "Place paper for print.", some (5/2), 0⟩,
           ⟨3, "Dodge subject", some (5/2), -1⟩]).2.light = false) :=
  ⟨by simp,
   make_prompt_lightoff_spec ⟨false, Option.none⟩
     [⟨5, "Place paper for print.", some (5/2), 0⟩,
      ⟨3, "Dodge subject", some (5/2), -1⟩] 0 (by simp)⟩

/-! Lemmas about successive differences (the test-strip arithmetic). -/

theorem diffs_cons_cons (a b : ℚ) (l : List ℚ) :
    diffs (a :: b :: l) = (b - a) :: diffs (b :: l) := rfl

theorem diffs_length (a : ℚ) (l : List ℚ) : (diffs (a :: l)).length = l.length := by
  simp [diffs]

theorem diffs_take_sum (l : List ℚ) (a : ℚ) (k : ℕ) (h : k < l.length) :
    ((diffs (a :: l)).take (k + 1)).sum = l.getD k 0 - a := by
  induction l generalizing a k with
  | nil => simp at h
  | cons x xs ih =>
    cases k with
    | zero => simp [diffs_cons_cons]
    | succ j =>
      have hj : j < xs.length := by simpa using h
      rw [diffs_cons_cons, List.take_succ_cons, List.sum_cons, ih x j hj,
        List.getD_cons_succ]
      ring

theorem diffs_sum_ne_nil (l : List ℚ) (a : ℚ) (h : l ≠ []) :
    (diffs (a :: l)).sum = l.getD (l.length - 1) 0 - a := by
  have hl : 0 < l.length := List.length_pos.mpr h
  have h2 := diffs_take_sum l a (l.length - 1) (by omega)
  have h3 : (diffs (a :: l)).take (l.length - 1 + 1) = diffs (a :: l) := by
    rw [show l.length - 1 + 1 = l.length from by omega, ← diffs_length a l,
      List.take_length]
  rw [h3] at h2
  exact h2

theorem diffs_getD (l : List ℚ) (a : ℚ) (k : ℕ) (hk : k < l.length) :
    (diffs (a :: l)).getD k 0 = l.getD k 0 - (a :: l).getD k 0 := by
  induction l generalizing a k with
  | nil => simp at hk
  | cons x xs ih =>
    cases k with
    | zero => simp [diffs_cons_cons]
    | succ j =>
      have hj : j < xs.length := by simpa using hk
      rw [diffs_cons_cons, List.getD_cons_succ, List.getD_cons_succ, ih x j hj,
        List.getD_cons_succ]

theorem diffs_nonneg (l : List ℚ) (a : ℚ) (h : List.Chain (· ≤ ·) a l) :
    ∀ d ∈ diffs (a :: l), 0 ≤ d := by
  induction l generalizing a with
  | nil => simp [diffs]
  | cons x xs ih =>
    rcases List.chain_cons.mp h with ⟨hax, hchain⟩
    intro d hd
    rw [diffs_cons_cons] at hd
    rcases List.mem_cons.mp hd with h1 | h2
    · rw [h1]
      linarith
    · exact ih x hchain d h2

theorem diffs_replicate (b : ℚ) (m : ℕ) :
    diffs (b :: List.replicate m b) = List.replicate m 0 := by
  induction m with
  | zero => rfl
  | succ n ih => simp [List.replicate_succ, diffs_cons_cons, ih]

theorem totalSteps_length (exp2 : ℚ → ℚ) (base : ℚ) (steps : ℕ) (stops : ℚ) :
    (totalSteps exp2 base steps stops).length = steps := by
  rw [totalSteps, List.length_map, List.length_range]

theorem totalSteps_getD (exp2 : ℚ → ℚ) (base : ℚ) (steps : ℕ) (stops : ℚ) (k : ℕ)
    (hk : k < steps) :
    (totalSteps exp2 base steps stops).getD k 0 = base * exp2 (k * stops) := by
  have hk2 : k < (totalSteps exp2 base steps stops).length := by
    rw [totalSteps_length]; exact hk
  rw [List.getD_eq_getElem?_getD, List.getElem?_eq_getElem hk2]
  simp only [totalSteps, List.getElem_map, List.getElem_range]
  rfl

theorem totalSteps_chain (exp2 : ℚ → ℚ) (base : ℚ) (steps : ℕ) (stops : ℚ)
    (hbase : 0 < base) (hstops : 0 < stops) (hmono : Monotone exp2)
    (h0 : 0 ≤ exp2 0) :
    List.Chain (· ≤ ·) 0 (totalSteps exp2 base steps stops) := by
  rw [List.chain_iff_get]
  constructor
  · intro h
    rw [List.get_eq_getElem]
    simp only [totalSteps, List.getElem_map, List.getElem_range]
    rw [show ((0 : ℕ) : ℚ) * stops = 0 by push_cast; ring]
    exact mul_nonneg hbase.le h0
  · intro i h
    rw [List.get_eq_getElem, List.get_eq_getElem]
    simp only [totalSteps, List.getElem_map, List.getElem_range]
    have hle : (i : ℚ) * stops ≤ ((i + 1 : ℕ) : ℚ) * stops := by
      push_cast
      nlinarith
    exact mul_le_mul_of_nonneg_left (hmono hle) hbase.le

theorem fStopTestStrip_durations (exp2 : ℚ → ℚ) (base : ℚ) (steps : ℕ) (stops : ℚ)
    (grade : Option ℚ) :
    (fStopTestStrip exp2 base steps stops false grade).map PrintStep.duration
      = fStopIncrementalSteps exp2 base steps stops := by
  simp only [fStopTestStrip, middleOutBase, Bool.false_eq_true, if_false,
    List.map_map]
  exact List.map_id'' (fun x => rfl) _

theorem fStopTestStrip_length (exp2 : ℚ → ℚ) (base : ℚ) (steps : ℕ) (stops : ℚ)
    (grade : Option ℚ) :
    (fStopTestStrip exp2 base steps stops false grade).length = steps := by
  have h := congrArg List.length (fStopTestStrip_durations exp2 base steps stops grade)
  simpa [fStopIncrementalSteps, diffs_length, totalSteps_length] using h

/-- C5: with `middle_out` false, the incremental test-strip durations of
`FStopTestStrip` are the successive differences of the cumulative
sequence `base * 2**(i*stops)`, their sum telescopes to the final
cumulative exposure `base * 2**((steps-1)*stops)`, and when
`stop_increment > 0` (and `2**·` is monotone with `2**0 ≥ 0`) every
increment is nonnegative. -/
theorem fstop_increments_sum (exp2 : ℚ → ℚ) (base : ℚ) (steps : ℕ) (stops : ℚ)
    (grade : Option ℚ) (hbase : 0 < base) (hsteps : 1 ≤ steps) (_hstops : stops ≠ 0) :
    (fStopIncrementalSteps exp2 base steps stops).sum
      = base * exp2 ((steps - 1 : ℕ) * stops)
    ∧ (fStopTestStrip exp2 base steps stops false grade).map PrintStep.duration
      = fStopIncrementalSteps exp2 base steps stops
    ∧ (0 < stops → Monotone exp2 → 0 ≤ exp2 0 →
        ∀ d ∈ fStopIncrementalSteps exp2 base steps stops, 0 ≤ d) := by
  refine ⟨?_, fStopTestStrip_durations exp2 base steps stops grade, ?_⟩
  · have hne : totalSteps exp2 base steps stops ≠ [] := by
      intro hc
      have := totalSteps_length exp2 base steps stops
      rw [hc] at this
      simp at this
      omega
    rw [fStopIncrementalSteps, diffs_sum_ne_nil _ _ hne, totalSteps_length,
      totalSteps_getD exp2 base steps stops (steps - 1) (by omega)]
    ring
  · intro hpos hmono h0
    exact diffs_nonneg _ _ (totalSteps_chain exp2 base steps stops hbase hpos hmono h0)

/-- C5 witness: the concrete strip `base = 4`, `steps = 5`, `stops = 1`
under `exp2IntN`. -/
theorem fstop_increments_sum_witness :
    ((0 : ℚ) < 4 ∧ 1 ≤ 5 ∧ ((1 : ℚ) ≠ 0))
    ∧ ((fStopIncrementalSteps exp2IntN 4 5 1).sum
        = 4 * exp2IntN ((5 - 1 : ℕ) * 1)
      ∧ (fStopTestStrip exp2IntN 4 5 1 false (some (5/2))).map PrintStep.duration
        = fStopIncrementalSteps exp2IntN 4 5 1
      ∧ (0 < (1 : ℚ) → Monotone exp2IntN → 0 ≤ exp2IntN 0 →
          ∀ d ∈ fStopIncrementalSteps exp2IntN 4 5 1, 0 ≤ d)) :=
  ⟨⟨by norm_num, by norm_num, by norm_num⟩,
   fstop_increments_sum exp2IntN 4 5 1 (some (5/2)) (by norm_num) (by norm_num)
     (by norm_num)⟩

/-- C9 counterexample: `FStopTestStrip` construction does not fail for
`steps < 1` or `stops == 0` — there is no validation in the source.
With `steps = 0` the construction completes normally and yields an empty
strip (for the localized variant too), and with `stops = 0` it completes
normally with increments `[4, 0, 0, 0, 0]`. -/
theorem fstop_no_validation_counterexample :
    fStopTestStrip exp2IntN 4 0 (1/2) false (some (5/2)) = []
    ∧ localizedFStopTestStrip exp2IntN 4 0 (1/2) false (some (5/2)) = []
    ∧ (fStopTestStrip exp2IntN 4 5 0 false (some (5/2))).map PrintStep.duration
        = [4, 0, 0, 0, 0] := by
  refine ⟨rfl, rfl, ?_⟩
  norm_num [fStopTestStrip, fStopIncrementalSteps, middleOutBase, totalSteps, diffs,
    exp2IntN, List.range_succ]

/-- C9 amended: `BarnbaumTestPrint` construction fails exactly when the
(possibly middle-out-halved) base exposure is below the 1 second floor,
constructing nothing on failure; `FStopTestStrip` and
`LocalizedFStopTestStrip` perform no parameter validation: `steps < 1`
yields an empty strip, and `stops = 0` yields a strip whose first
increment is the whole base exposure and whose remaining increments are
all zero. -/
theorem construction_validation_spec :
    (∀ (base : ℚ) (mo : Bool) (grade : Option ℚ),
        (∃ msg, barnbaumTestPrint base mo grade = Except.error msg)
          ↔ (if mo then base / 2 else base) < 1)
    ∧ (∀ (exp2 : ℚ → ℚ) (base stops : ℚ) (mo : Bool) (grade : Option ℚ),
        fStopTestStrip exp2 base 0 stops mo grade = []
        ∧ localizedFStopTestStrip exp2 base 0 stops mo grade = [])
    ∧ (∀ (exp2 : ℚ → ℚ) (base : ℚ) (steps : ℕ) (grade : Option ℚ),
        exp2 0 = 1 → 1 ≤ steps →
        (fStopTestStrip exp2 base steps 0 false grade).map PrintStep.duration
          = base :: List.replicate (steps - 1) 0) := by
  refine ⟨?_, ?_, ?_⟩
  · intro base mo grade
    by_cases hb : (if mo then base / 2 else base) < 1 <;>
      simp [barnbaumTestPrint, hb]
  · intro exp2 base stops mo grade
    exact ⟨rfl, rfl⟩
  · intro exp2 base steps grade h1 hsteps
    rw [fStopTestStrip_durations]
    have ht : totalSteps exp2 base steps 0 = List.replicate steps base := by
      rw [totalSteps]
      apply List.eq_replicate_iff.mpr
      refine ⟨by rw [List.length_map, List.length_range], ?_⟩
      intro x hx
      simp only [List.mem_map, List.mem_range] at hx
      obtain ⟨i, _, rfl⟩ := hx
      rw [mul_zero, h1, mul_one]
    cases steps with
    | zero => omega
    | succ n =>
      rw [fStopIncrementalSteps, ht, List.replicate_succ]
      have h2 := diffs_replicate base n
      rw [show ((0 : ℚ) :: base :: List.replicate n base)
            = 0 :: base :: List.replicate n base from rfl]
      rw [show diffs (0 :: base :: List.replicate n base)
            = (base - 0) :: diffs (base :: List.replicate n base) from rfl, h2]
      simp

/-- C9 amended witness: the Barnbaum rejection at `base = 1/2`, the
empty `steps = 0` strip, and the `stops = 0` strip with `steps = 5`. -/
theorem construction_validation_spec_witness :
    (∃ msg, barnbaumTestPrint (1/2) false (some 2) = Except.error msg)
    ∧ (fStopTestStrip exp2IntN 4 0 (1/2) true (some (5/2)) = []
       ∧ localizedFStopTestStrip exp2IntN 4 0 (1/2) true (some (5/2)) = [])
    ∧ ((fStopTestStrip exp2IntN 4 5 0 false (some (5/2))).map PrintStep.duration
        = 4 :: List.replicate (5 - 1) 0) :=
  ⟨(construction_validation_spec.1 (1/2) false (some 2)).mpr (by norm_num),
   construction_validation_spec.2.1 exp2IntN 4 (1/2) true (some (5/2)),
   construction_validation_spec.2.2 exp2IntN 4 5 (some (5/2)) rfl (by norm_num)⟩

/-- C10: for a `middle_out = false` strip and `0 ≤ k < steps`, indexed
lookup through `__getitem__` returns the *cumulative* exposure
`base * 2**(k*stops)` with the stored step's grade, while the stored
print list holds only the incremental duration at position `k`, and
`from_step` re-derives a new strip whose base is the total exposure of
the selected step, not its increment. -/
theorem fstop_getitem_cumulative (exp2 : ℚ → ℚ) (base : ℚ) (steps : ℕ) (stops : ℚ)
    (grade : Option ℚ) (k : ℕ) (hk : k < steps) :
    (fStopGetItem (fStopTestStrip exp2 base steps stops false grade) k
      = some ⟨base * exp2 (k * stops), "", grade, 0⟩)
    ∧ (((fStopTestStrip exp2 base steps stops false grade).getD k default).duration
        = base * exp2 (k * stops)
          - (if k = 0 then 0 else base * exp2 (((k - 1 : ℕ) : ℚ) * stops)))
    ∧ (∀ (steps2 : ℕ) (stops2 : ℚ) (mo2 : Bool) (grade2 : Option ℚ),
        fStopFromStep exp2 (fStopTestStrip exp2 base steps stops false grade) (k + 1)
            steps2 stops2 mo2 grade2
          = some (fStopTestStrip exp2 (base * exp2 (k * stops)) steps2 stops2 mo2
              (if grade2 = Option.none then grade else grade2))) := by
  have hlen := fStopTestStrip_length exp2 base steps stops grade
  have hklen : k < (fStopTestStrip exp2 base steps stops false grade).length := by
    rw [hlen]; exact hk
  have hinc : k < (fStopIncrementalSteps exp2 base steps stops).length := by
    have := congrArg List.length (fStopTestStrip_durations exp2 base steps stops grade)
    simp only [List.length_map] at this
    rw [← this]; exact hklen
  have hsum : (((fStopTestStrip exp2 base steps stops false grade).take (k + 1)).map
      PrintStep.duration).sum = base * exp2 (k * stops) := by
    rw [List.map_take, fStopTestStrip_durations, fStopIncrementalSteps,
      diffs_take_sum (totalSteps exp2 base steps stops) 0 k
        (by rw [totalSteps_length]; exact hk),
      totalSteps_getD exp2 base steps stops k hk]
    ring
  have hgrade : ((fStopTestStrip exp2 base steps stops false grade).get
      ⟨k, hklen⟩).grade = grade := by
    simp [fStopTestStrip, middleOutBase]
  have hget : fStopGetItem (fStopTestStrip exp2 base steps stops false grade) k
      = some ⟨base * exp2 (k * stops), "", grade, 0⟩ := by
    unfold fStopGetItem
    rw [dif_pos hklen, hsum]
    rw [show ((fStopTestStrip exp2 base steps stops false grade).get
        ⟨k, hklen⟩).grade = grade from hgrade]
  refine ⟨hget, ?_, ?_⟩
  · have hdur : ((fStopTestStrip exp2 base steps stops false grade).getD k
        default).duration = (fStopIncrementalSteps exp2 base steps stops).getD k 0 := by
      rw [← fStopTestStrip_durations exp2 base steps stops grade]
      rw [List.getD_eq_getElem?_getD, List.getD_eq_getElem?_getD,
        List.getElem?_map]
      rw [List.getElem?_eq_getElem hklen]
      rfl
    rw [hdur, fStopIncrementalSteps,
      diffs_getD (totalSteps exp2 base steps stops) 0 k
        (by rw [totalSteps_length]; exact hk),
      totalSteps_getD exp2 base steps stops k hk]
    cases k with
    | zero => simp
    | succ j =>
      rw [List.getD_cons_succ, totalSteps_getD exp2 base steps stops j (by omega)]
      simp
  · intro steps2 stops2 mo2 grade2
    unfold fStopFromStep
    rw [show k + 1 - 1 = k from rfl, hget]
    rfl

/-- C10 witness: the strip `base = 4`, `steps = 5`, `stops = 1` under
`exp2IntN` at index `k = 2`. -/
theorem fstop_getitem_cumulative_witness :
    ((2 : ℕ) < 5)
    ∧ ((fStopGetItem (fStopTestStrip exp2IntN 4 5 1 false (some (5/2))) 2
        = some ⟨4 * exp2IntN (2 * 1), "", some (5/2), 0⟩)
      ∧ (((fStopTestStrip exp2IntN 4 5 1 false (some (5/2))).getD 2 default).duration
          = 4 * exp2IntN (2 * 1)
            - (if (2 : ℕ) = 0 then 0 else 4 * exp2IntN (((2 - 1 : ℕ) : ℚ) * 1)))
      ∧ (∀ (steps2 : ℕ) (stops2 : ℚ) (mo2 : Bool) (grade2 : Option ℚ),
          fStopFromStep exp2IntN (fStopTestStrip exp2IntN 4 5 1 false (some (5/2)))
              (2 + 1) steps2 stops2 mo2 grade2
            = some (fStopTestStrip exp2IntN (4 * exp2IntN (2 * 1)) steps2 stops2 mo2
                (if grade2 = Option.none then some (5/2) else grade2)))) :=
  ⟨by norm_num,
   fstop_getitem_cumulative exp2IntN 4 5 1 (some (5/2)) 2 (by norm_num)⟩

/-! Lemmas about the `MultiStepPrint` builder. -/

theorem calcDodgeSteps_spec (exp2 : ℚ → ℚ) (base : ℚ) (grade : Option ℚ)
    (mods : List PrintStep) :
    calcDodgeSteps exp2 base grade mods
      = (mods.map (fun m => (⟨base - base / exp2 m.duration, m.user_prompt, grade,
            m.before_step_duration⟩ : PrintStep)),
         (mods.map PrintStep.duration).sum,
         (mods.map (fun m => base - base / exp2 m.duration)).sum) := by
  induction mods with
  | nil => simp [calcDodgeSteps]
  | cons m ms ih => simp [calcDodgeSteps, ih]

theorem buildPrintList_realizes (exp2 : ℚ → ℚ) (s : MultiStepPrint) :
    Realizes exp2 (buildPrintList exp2 s) := by
  unfold Realizes buildPrintList
  rw [calcDodgeSteps_spec]
  constructor <;> simp [calcBurnSteps]

theorem init_realizes (exp2 : ℚ → ℚ) (b : ℚ) (g : Option ℚ) (p : String) (bd : ℚ) :
    Realizes exp2 (MultiStepPrint.init exp2 b g p bd) :=
  buildPrintList_realizes exp2 _

theorem buildPrintList_total (exp2 : ℚ → ℚ) (s : MultiStepPrint) :
    (buildPrintList exp2 s).total_dodge_duration
      = (s.dodge_steps_in_stops.map
          (fun m => s.base_duration - s.base_duration / exp2 m.duration)).sum := by
  unfold buildPrintList
  rw [calcDodgeSteps_spec]

theorem realizes_length (exp2 : ℚ → ℚ) (s : MultiStepPrint) (h : Realizes exp2 s) :
    s.print_list.length
      = 1 + s.dodge_steps_in_stops.length + s.burn_steps_in_stops.length := by
  rw [h.2]
  simp [List.length_append]
  omega

/-- C6: after every mutation of a `MultiStepPrint` — construction,
`dodge` (whether it succeeds or is rejected), `burn`, `remove_step`
(every outcome), and the `base_duration`, `grade` and `base_user_prompt`
setters — the realized print list is `[base_step] ++ dodge_steps ++
burn_steps` with the base step's duration equal to `base_duration` minus
the sum of all dodge durations `base - base/2**stops`, and each burn
duration equal to `base * 2**stops - base`: the realized list is the
pure function `Realizes` of the base parameters and the two modifier
lists, recomputed on every mutation. -/
theorem multi_step_print_realized (exp2 : ℚ → ℚ) (s : MultiStepPrint)
    (hs : Realizes exp2 s) (b : ℚ) (g : Option ℚ) (p : String) (bd : ℚ)
    (stops before : ℚ) (subj : String) (bgrade : Option ℚ) (bbefore : ℚ)
    (bsubj : String) (n : ℤ) (nd : ℚ) (ng : Option ℚ) (np : String) :
    Realizes exp2 (MultiStepPrint.init exp2 b g p bd)
    ∧ Realizes exp2 ((MultiStepPrint.dodge exp2 s stops before subj).1)
    ∧ Realizes exp2 (MultiStepPrint.burn exp2 s stops bgrade bbefore bsubj)
    ∧ Realizes exp2 ((MultiStepPrint.removeStep exp2 s n).1)
    ∧ Realizes exp2 (MultiStepPrint.setBaseDuration exp2 s nd)
    ∧ Realizes exp2 (MultiStepPrint.setGrade exp2 s ng)
    ∧ Realizes exp2 (MultiStepPrint.setBaseUserPrompt exp2 s np) := by
  refine ⟨init_realizes exp2 b g p bd, ?_, buildPrintList_realizes exp2 _, ?_,
    buildPrintList_realizes exp2 _, buildPrintList_realizes exp2 _,
    buildPrintList_realizes exp2 _⟩
  · simp only [MultiStepPrint.dodge]
    split_ifs
    · exact hs
    · exact buildPrintList_realizes exp2 _
  · simp only [MultiStepPrint.removeStep]
    split_ifs
    · exact hs
    · exact hs
    · rcases hpop : listPop (s.dodge_steps_in_stops ++ s.burn_steps_in_stops) (n - 2)
        with _ | item <;> simp only [hpop]
      · exact hs
      · split_ifs <;> exact buildPrintList_realizes exp2 _

/-- C6 witness: the invariant applied to a concrete builder with one
dodge step. -/
theorem multi_step_print_realized_witness :
    Realizes exp2IntN (MultiStepPrint.init exp2IntN 10 (some (5/2))
      "Place paper for print." 0)
    ∧ Realizes exp2IntN ((MultiStepPrint.dodge exp2IntN
        (MultiStepPrint.init exp2IntN 10 (some (5/2)) "Place paper for print." 0)
        1 (-1) "sky").1)
    ∧ Realizes exp2IntN (MultiStepPrint.burn exp2IntN
        (MultiStepPrint.init exp2IntN 10 (some (5/2)) "Place paper for print." 0)
        1 Option.none 0 "corner")
    ∧ Realizes exp2IntN ((MultiStepPrint.removeStep exp2IntN
        (MultiStepPrint.init exp2IntN 10 (some (5/2)) "Place paper for print." 0)
        2).1)
    ∧ Realizes exp2IntN (MultiStepPrint.setBaseDuration exp2IntN
        (MultiStepPrint.init exp2IntN 10 (some (5/2)) "Place paper for print." 0) 12)
    ∧ Realizes exp2IntN (MultiStepPrint.setGrade exp2IntN
        (MultiStepPrint.init exp2IntN 10 (some (5/2)) "Place paper for print." 0)
        (some 3))
    ∧ Realizes exp2IntN (MultiStepPrint.setBaseUserPrompt exp2IntN
        (MultiStepPrint.init exp2IntN 10 (some (5/2)) "Place paper for print." 0)
        "Go") :=
  multi_step_print_realized exp2IntN
    (MultiStepPrint.init exp2IntN 10 (some (5/2)) "Place paper for print." 0)
    (init_realizes exp2IntN 10 (some (5/2)) "Place paper for print." 0)
    10 (some (5/2)) "Place paper for print." 0 1 (-1) "sky" Option.none 0 "corner"
    2 12 (some 3) "Go"

/-- C2 counterexample: with `base_duration = 10` and one existing
`dodge(stops=1)` (total dodge duration 5), a further `dodge(stops=1)`
proposes exactly `5 + 5 = 10 = base_duration`; the source guard uses a
strict `>` comparison, so the call *succeeds* (no error), producing a
3-step print with total dodge duration equal to the base duration —
refuting both the claimed rejection of equality and the claimed strict
invariant `total_dodge_duration < base_duration`. -/
theorem dodge_at_equality_succeeds_counterexample :
    ((MultiStepPrint.dodge exp2IntN
        (MultiStepPrint.init exp2IntN 10 (some (5/2)) "Place paper for print." 0)
        1 (-1) "").1.print_list.length = 2)
    ∧ ((MultiStepPrint.dodge exp2IntN
        (MultiStepPrint.init exp2IntN 10 (some (5/2)) "Place paper for print." 0)
        1 (-1) "").1.total_dodge_duration = 5)
    ∧ ((MultiStepPrint.dodge exp2IntN
        ((MultiStepPrint.dodge exp2IntN
          (MultiStepPrint.init exp2IntN 10 (some (5/2)) "Place paper for print." 0)
          1 (-1) "").1) 1 (-1) "").2 = Option.none)
    ∧ ((MultiStepPrint.dodge exp2IntN
        ((MultiStepPrint.dodge exp2IntN
          (MultiStepPrint.init exp2IntN 10 (some (5/2)) "Place paper for print." 0)
          1 (-1) "").1) 1 (-1) "").1.print_list.length = 3)
    ∧ ((MultiStepPrint.dodge exp2IntN
        ((MultiStepPrint.dodge exp2IntN
          (MultiStepPrint.init exp2IntN 10 (some (5/2)) "Place paper for print." 0)
          1 (-1) "").1) 1 (-1) "").1.total_dodge_duration = 10) := by
  norm_num [MultiStepPrint.init, MultiStepPrint.dodge, buildPrintList, calcDodgeSteps,
    calcBurnSteps, exp2IntN, dodgePrompt]

/-- C2 amended: `dodge(stops)` fails exactly when the proposed dodge
duration plus the existing total dodge duration is *strictly greater*
than `base_duration` (equality is accepted); on failure the builder is
returned unchanged, and after a successful call the total dodge duration
satisfies the non-strict bound `total_dodge_duration ≤ base_duration`. -/
theorem dodge_guard_strict_and_atomic (exp2 : ℚ → ℚ) (s : MultiStepPrint)
    (stops before : ℚ) (subject : String) (hs : Realizes exp2 s) :
    ((MultiStepPrint.dodge exp2 s stops before subject).2.isSome
      ↔ s.base_duration
          < (s.base_duration - s.base_duration / exp2 stops) + s.total_dodge_duration)
    ∧ ((MultiStepPrint.dodge exp2 s stops before subject).2.isSome
        → (MultiStepPrint.dodge exp2 s stops before subject).1 = s)
    ∧ ((MultiStepPrint.dodge exp2 s stops before subject).2 = Option.none
        → (MultiStepPrint.dodge exp2 s stops before subject).1.total_dodge_duration
            ≤ s.base_duration
          ∧ (MultiStepPrint.dodge exp2 s stops before subject).1.base_duration
            = s.base_duration) := by
  simp only [MultiStepPrint.dodge]
  split_ifs with hguard
  · refine ⟨?_, fun _ => rfl, ?_⟩
    · simpa using hguard
    · intro hc
      simp at hc
  · refine ⟨?_, ?_, ?_⟩
    · simpa using hguard
    · intro hc
      simp at hc
    · intro _
      constructor
      · rw [buildPrintList_total]
        simp only [List.map_append, List.sum_append, List.map_cons, List.map_nil,
          List.sum_cons, List.sum_nil]
        rw [← hs.1]
        simp only [gt_iff_lt, not_lt] at hguard
        linarith
      · rfl

/-- C2 amended witness: the `base = 10`, one-dodge builder. -/
theorem dodge_guard_strict_and_atomic_witness :
    ((MultiStepPrint.dodge exp2IntN
        (MultiStepPrint.init exp2IntN 10 (some (5/2)) "Place paper for print." 0)
        1 (-1) "").2.isSome
      ↔ (MultiStepPrint.init exp2IntN 10 (some (5/2))
            "Place paper for print." 0).base_duration
          < ((MultiStepPrint.init exp2IntN 10 (some (5/2))
                "Place paper for print." 0).base_duration
              - (MultiStepPrint.init exp2IntN 10 (some (5/2))
                  "Place paper for print." 0).base_duration / exp2IntN 1)
            + (MultiStepPrint.init exp2IntN 10 (some (5/2))
                "Place paper for print." 0).total_dodge_duration)
    ∧ ((MultiStepPrint.dodge exp2IntN
          (MultiStepPrint.init exp2IntN 10 (some (5/2)) "Place paper for print." 0)
          1 (-1) "").2.isSome
        → (MultiStepPrint.dodge exp2IntN
            (MultiStepPrint.init exp2IntN 10 (some (5/2)) "Place paper for print." 0)
            1 (-1) "").1
          = MultiStepPrint.init exp2IntN 10 (some (5/2)) "Place paper for print." 0)
    ∧ ((MultiStepPrint.dodge exp2IntN
          (MultiStepPrint.init exp2IntN 10 (some (5/2)) "Place paper for print." 0)
          1 (-1) "").2 = Option.none
        → (MultiStepPrint.dodge exp2IntN
            (MultiStepPrint.init exp2IntN 10 (some (5/2)) "Place paper for print." 0)
            1 (-1) "").1.total_dodge_duration
            ≤ (MultiStepPrint.init exp2IntN 10 (some (5/2))
                "Place paper for print." 0).base_duration
          ∧ (MultiStepPrint.dodge exp2IntN
              (MultiStepPrint.init exp2IntN 10 (some (5/2)) "Place paper for print." 0)
              1 (-1) "").1.base_duration
            = (MultiStepPrint.init exp2IntN 10 (some (5/2))
                "Place paper for print." 0).base_duration) :=
  dodge_guard_strict_and_atomic exp2IntN
    (MultiStepPrint.init exp2IntN 10 (some (5/2)) "Place paper for print." 0)
    1 (-1) ""
    (init_realizes exp2IntN 10 (some (5/2)) "Place paper for print." 0)

theorem listPop_nonneg (xs : List PrintStep) (i : ℤ) (h0 : 0 ≤ i)
    (h1 : i < (xs.length : ℤ)) :
    listPop xs i = some (xs.get ⟨i.toNat, by omega⟩) := by
  have hlt : ¬ i < 0 := by omega
  simp only [listPop, hlt, if_false]
  rw [dif_pos ⟨h0, h1⟩]

/-- C7 counterexample: `remove_step(0)` on a builder with one dodge and
one burn modifier does not fail and does not leave the print unchanged:
Python's `pop(0 - 2) = pop(-2)` indexes from the end of the two-element
modifier list, so the dodge modifier is removed and the realized print
shrinks from 3 steps to 2. -/
theorem remove_step_zero_counterexample :
    ((MultiStepPrint.burn exp2IntN
        ((MultiStepPrint.dodge exp2IntN
          (MultiStepPrint.init exp2IntN 10 (some (5/2)) "Place paper for print." 0)
          1 (-1) "").1) 1 Option.none 0 "").print_list.length = 3)
    ∧ ((MultiStepPrint.removeStep exp2IntN
        (MultiStepPrint.burn exp2IntN
          ((MultiStepPrint.dodge exp2IntN
            (MultiStepPrint.init exp2IntN 10 (some (5/2)) "Place paper for print." 0)
            1 (-1) "").1) 1 Option.none 0 "") 0).2 = RemoveNote.removed)
    ∧ ((MultiStepPrint.removeStep exp2IntN
        (MultiStepPrint.burn exp2IntN
          ((MultiStepPrint.dodge exp2IntN
            (MultiStepPrint.init exp2IntN 10 (some (5/2)) "Place paper for print." 0)
            1 (-1) "").1) 1 Option.none 0 "") 0).1.print_list.length = 2) := by
  norm_num [MultiStepPrint.init, MultiStepPrint.dodge, MultiStepPrint.burn,
    MultiStepPrint.removeStep, buildPrintList, calcDodgeSteps, calcBurnSteps,
    exp2IntN, dodgePrompt, burnPrompt, listPop, List.erase]

/-- C7 amended: `remove_step(1)` is a no-op that leaves the builder
unchanged (a message is printed, no error is raised), as is
`remove_step(n)` for `n` past the end of the print list; for a valid
modifier step number `2 ≤ n ≤ length` the call removes exactly one
modifier — the realized print list shrinks by exactly one, the base
parameters are untouched, and the realized base step stays in first
position (its duration is recomputed from the remaining dodge
modifiers).  Nonpositive `n` is *not* rejected: it follows Python's
negative `pop` indexing (see the counterexample). -/
theorem remove_step_spec (exp2 : ℚ → ℚ) (s : MultiStepPrint) (n : ℤ)
    (hs : Realizes exp2 s) :
    (n = 1 → MultiStepPrint.removeStep exp2 s n = (s, RemoveNote.noAction))
    ∧ (n > (s.print_list.length : ℤ)
        → MultiStepPrint.removeStep exp2 s n = (s, RemoveNote.noAction))
    ∧ (2 ≤ n → n ≤ (s.print_list.length : ℤ) →
        (MultiStepPrint.removeStep exp2 s n).2 = RemoveNote.removed
        ∧ (MultiStepPrint.removeStep exp2 s n).1.print_list.length + 1
            = s.print_list.length
        ∧ (MultiStepPrint.removeStep exp2 s n).1.base_duration = s.base_duration
        ∧ (MultiStepPrint.removeStep exp2 s n).1.base_grade = s.base_grade
        ∧ (MultiStepPrint.removeStep exp2 s n).1.base_user_prompt = s.base_user_prompt
        ∧ ∃ rest, (MultiStepPrint.removeStep exp2 s n).1.print_list
            = (⟨(MultiStepPrint.removeStep exp2 s n).1.base_duration
                  - (MultiStepPrint.removeStep exp2 s n).1.total_dodge_duration,
                s.base_user_prompt, s.base_grade,
                s.base_before_step_duration⟩ : PrintStep) :: rest) := by
  refine ⟨?_, ?_, ?_⟩
  · intro h1
    simp only [MultiStepPrint.removeStep, if_pos h1]
  · intro h2
    by_cases h1 : n = 1
    · simp only [MultiStepPrint.removeStep, if_pos h1]
    · simp only [MultiStepPrint.removeStep, if_neg h1, if_pos h2]
  · intro h2 h3
    have h1 : ¬ n = 1 := by omega
    have hgt : ¬ n > (s.print_list.length : ℤ) := by omega
    have hmods := realizes_length exp2 s hs
    have hdb : (s.dodge_steps_in_stops ++ s.burn_steps_in_stops).length
        = s.dodge_steps_in_stops.length + s.burn_steps_in_stops.length :=
      List.length_append _ _
    obtain ⟨item, hpop⟩ : ∃ it,
        listPop (s.dodge_steps_in_stops ++ s.burn_steps_in_stops) (n - 2) = some it := by
      rw [listPop_nonneg _ _ (by omega) (by omega)]
      exact ⟨_, rfl⟩
    have hitem : item ∈ s.dodge_steps_in_stops ++ s.burn_steps_in_stops := by
      rw [listPop_nonneg _ _ (by omega) (by omega)] at hpop
      exact (Option.some.inj hpop) ▸ List.get_mem _ _ _
    by_cases hd : item ∈ s.dodge_steps_in_stops
    · have hred : MultiStepPrint.removeStep exp2 s n
          = (buildPrintList exp2
              { s with dodge_steps_in_stops := s.dodge_steps_in_stops.erase item },
             RemoveNote.removed) := by
        simp only [MultiStepPrint.removeStep, if_neg h1, if_neg hgt, hpop, if_pos hd]
      have hr := buildPrintList_realizes exp2
        { s with dodge_steps_in_stops := s.dodge_steps_in_stops.erase item }
      rw [hred]
      have hlen : (buildPrintList exp2
          { s with dodge_steps_in_stops := s.dodge_steps_in_stops.erase item
          }).print_list.length
          = 1 + (s.dodge_steps_in_stops.erase item).length
            + s.burn_steps_in_stops.length := realizes_length exp2 _ hr
      have herase := List.length_erase_of_mem hd
      have hdpos : 0 < s.dodge_steps_in_stops.length :=
        List.length_pos.mpr (List.ne_nil_of_mem hd)
      refine ⟨rfl, ?_, rfl, rfl, rfl, ?_⟩
      · rw [hlen, hmods]
        omega
      · have hhead := hr.2
        rw [← hr.1] at hhead
        exact ⟨_, hhead⟩
    · have hb : item ∈ s.burn_steps_in_stops :=
        (List.mem_append.mp hitem).resolve_left hd
      have hred : MultiStepPrint.removeStep exp2 s n
          = (buildPrintList exp2
              { s with burn_steps_in_stops := s.burn_steps_in_stops.erase item },
             RemoveNote.removed) := by
        simp only [MultiStepPrint.removeStep, if_neg h1, if_neg hgt, hpop, if_neg hd]
      have hr := buildPrintList_realizes exp2
        { s with burn_steps_in_stops := s.burn_steps_in_stops.erase item }
      rw [hred]
      have hlen : (buildPrintList exp2
          { s with burn_steps_in_stops := s.burn_steps_in_stops.erase item
          }).print_list.length
          = 1 + s.dodge_steps_in_stops.length
            + (s.burn_steps_in_stops.erase item).length := realizes_length exp2 _ hr
      have herase := List.length_erase_of_mem hb
      have hbpos : 0 < s.burn_steps_in_stops.length :=
        List.length_pos.mpr (List.ne_nil_of_mem hb)
      refine ⟨rfl, ?_, rfl, rfl, rfl, ?_⟩
      · rw [hlen, hmods]
        omega
      · have hhead := hr.2
        rw [← hr.1] at hhead
        exact ⟨_, hhead⟩

/-- C7 amended witness: the builder with one dodge and one burn, at the
valid step number `n = 2`. -/
theorem remove_step_spec_witness :
    ((2 : ℤ) = 1 → MultiStepPrint.removeStep exp2IntN (MultiStepPrint.burn exp2IntN
      ((MultiStepPrint.dodge exp2IntN
        (MultiStepPrint.init exp2IntN 10 (some (5/2)) "Place paper for print." 0)
        1 (-1) "").1) 1 Option.none 0 "") 2
        = ((MultiStepPrint.burn exp2IntN
      ((MultiStepPrint.dodge exp2IntN
        (MultiStepPrint.init exp2IntN 10 (some (5/2)) "Place paper for print." 0)
        1 (-1) "").1) 1 Option.none 0 ""), RemoveNote.noAction))
    ∧ ((2 : ℤ) > ((MultiStepPrint.burn exp2IntN
      ((MultiStepPrint.dodge exp2IntN
        (MultiStepPrint.init exp2IntN 10 (some (5/2)) "Place paper for print." 0)
        1 (-1) "").1) 1 Option.none 0 "").print_list.length : ℤ)
        → MultiStepPrint.removeStep exp2IntN (MultiStepPrint.burn exp2IntN
      ((MultiStepPrint.dodge exp2IntN
        (MultiStepPrint.init exp2IntN 10 (some (5/2)) "Place paper for print." 0)
        1 (-1) "").1) 1 Option.none 0 "") 2
          = ((MultiStepPrint.burn exp2IntN
      ((MultiStepPrint.dodge exp2IntN
        (MultiStepPrint.init exp2IntN 10 (some (5/2)) "Place paper for print." 0)
        1 (-1) "").1) 1 Option.none 0 ""), RemoveNote.noAction))
    ∧ ((2 : ℤ) ≤ 2 → (2 : ℤ) ≤ ((MultiStepPrint.burn exp2IntN
      ((MultiStepPrint.dodge exp2IntN
        (MultiStepPrint.init exp2IntN 10 (some (5/2)) "Place paper for print." 0)
        1 (-1) "").1) 1 Option.none 0 "").print_list.length : ℤ) →
        (MultiStepPrint.removeStep exp2IntN (MultiStepPrint.burn exp2IntN
      ((MultiStepPrint.dodge exp2IntN
        (MultiStepPrint.init exp2IntN 10 (some (5/2)) "Place paper for print." 0)
        1 (-1) "").1) 1 Option.none 0 "") 2).2 = RemoveNote.removed
        ∧ (MultiStepPrint.removeStep exp2IntN (MultiStepPrint.burn exp2IntN
      ((MultiStepPrint.dodge exp2IntN
        (MultiStepPrint.init exp2IntN 10 (some (5/2)) "Place paper for print." 0)
        1 (-1) "").1) 1 Option.none 0 "") 2).1.print_list.length + 1
            = (MultiStepPrint.burn exp2IntN
      ((MultiStepPrint.dodge exp2IntN
        (MultiStepPrint.init exp2IntN 10 (some (5/2)) "Place paper for print." 0)
        1 (-1) "").1) 1 Option.none 0 "").print_list.length
        ∧ (MultiStepPrint.removeStep exp2IntN (MultiStepPrint.burn exp2IntN
      ((MultiStepPrint.dodge exp2IntN
        (MultiStepPrint.init exp2IntN 10 (some (5/2)) "Place paper for print." 0)
        1 (-1) "").1) 1 Option.none 0 "") 2).1.base_duration
            = (MultiStepPrint.burn exp2IntN
      ((MultiStepPrint.dodge exp2IntN
        (MultiStepPrint.init exp2IntN 10 (some (5/2)) "Place paper for print." 0)
        1 (-1) "").1) 1 Option.none 0 "").base_duration
        ∧ (MultiStepPrint.removeStep exp2IntN (MultiStepPrint.burn exp2IntN
      ((MultiStepPrint.dodge exp2IntN
        (MultiStepPrint.init exp2IntN 10 (some (5/2)) "Place paper for print." 0)
        1 (-1) "").1) 1 Option.none 0 "") 2).1.base_grade = (MultiStepPrint.burn exp2IntN
      ((MultiStepPrint.dodge exp2IntN
        (MultiStepPrint.init exp2IntN 10 (some (5/2)) "Place paper for print." 0)
        1 (-1) "").1) 1 Option.none 0 "").base_grade
        ∧ (MultiStepPrint.removeStep exp2IntN (MultiStepPrint.burn exp2IntN
      ((MultiStepPrint.dodge exp2IntN
        (MultiStepPrint.init exp2IntN 10 (some (5/2)) "Place paper for print." 0)
        1 (-1) "").1) 1 Option.none 0 "") 2).1.base_user_prompt
            = (MultiStepPrint.burn exp2IntN
      ((MultiStepPrint.dodge exp2IntN
        (MultiStepPrint.init exp2IntN 10 (some (5/2)) "Place paper for print." 0)
        1 (-1) "").1) 1 Option.none 0 "").base_user_prompt
        ∧ ∃ rest, (MultiStepPrint.removeStep exp2IntN (MultiStepPrint.burn exp2IntN
      ((MultiStepPrint.dodge exp2IntN
        (MultiStepPrint.init exp2IntN 10 (some (5/2)) "Place paper for print." 0)
        1 (-1) "").1) 1 Option.none 0 "") 2).1.print_list
            = (⟨(MultiStepPrint.removeStep exp2IntN (MultiStepPrint.burn exp2IntN
      ((MultiStepPrint.dodge exp2IntN
        (MultiStepPrint.init exp2IntN 10 (some (5/2)) "Place paper for print." 0)
        1 (-1) "").1) 1 Option.none 0 "") 2).1.base_duration
                  - (MultiStepPrint.removeStep exp2IntN (MultiStepPrint.burn exp2IntN
      ((MultiStepPrint.dodge exp2IntN
        (MultiStepPrint.init exp2IntN 10 (some (5/2)) "Place paper for print." 0)
        1 (-1) "").1) 1 Option.none 0 "") 2).1.total_dodge_duration,
                (MultiStepPrint.burn exp2IntN
      ((MultiStepPrint.dodge exp2IntN
        (MultiStepPrint.init exp2IntN 10 (some (5/2)) "Place paper for print." 0)
        1 (-1) "").1) 1 Option.none 0 "").base_user_prompt, (MultiStepPrint.burn exp2IntN
      ((MultiStepPrint.dodge exp2IntN
        (MultiStepPrint.init exp2IntN 10 (some (5/2)) "Place paper for print." 0)
        1 (-1) "").1) 1 Option.none 0 "").base_grade,
                (MultiStepPrint.burn exp2IntN
      ((MultiStepPrint.dodge exp2IntN
        (MultiStepPrint.init exp2IntN 10 (some (5/2)) "Place paper for print." 0)
        1 (-1) "").1) 1 Option.none 0 "").base_before_step_duration⟩ : PrintStep) :: rest) :=
  remove_step_spec exp2IntN (MultiStepPrint.burn exp2IntN
      ((MultiStepPrint.dodge exp2IntN
        (MultiStepPrint.init exp2IntN 10 (some (5/2)) "Place paper for print." 0)
        1 (-1) "").1) 1 Option.none 0 "") 2 (buildPrintList_realizes exp2IntN _)

end Theorems

end SmartDarkroom
